import Mathlib

/-!
# Verification of the serverless feedback handler

A shallow embedding of `src/backend/lambda_function.py` (the single Lambda
handler of the feedback platform) together with proofs of the behavioural
claims about it.

Modelling conventions:

* Python/JSON values are the inductive `PyVal`.  Python's `bool` is a
  subclass of `int`, so `isinstance (r, int)` holds for both `PyVal.int`
  and `PyVal.bool`, and booleans compare numerically (`True == 1`).
* `json.loads` either succeeds with a `PyVal` or raises
  `json.JSONDecodeError`; the outcome is the input type `BodyParse`.
* Exceptions raised inside the `try` block are the type `PyFault`; the
  `except` clauses of the source are the match at the end of
  `lambda_handler`.  `AttributeError` texts are abridged (the quote
  characters of CPython's rendering are omitted); no claim depends on
  their exact wording.
* The non-deterministic runtime inputs — `str(uuid.uuid4())`,
  `datetime.now().isoformat()`, and whether `table.put_item` raises —
  are explicit parameters `fid`, `ts`, `putFault` of the handler.
* The handler returns, besides the response, the trace of `put_item`
  calls it issued (each call appears in the trace whether or not the
  underlying write then raised).  The handler being a total Lean function
  embeds the fact that no fault escapes it.
-/

/-- A Python value as produced by `json.loads` (JSON `null` is Python
`None`; floats do not occur in any claim and are omitted). -/
inductive PyVal where
  | str : String → PyVal
  | int : Int → PyVal
  | bool : Bool → PyVal
  | null : PyVal
  | list : List PyVal → PyVal
  | dict : List (String × PyVal) → PyVal

/-- Outcome of `json.loads(event['body'])`: either the body string is not
valid JSON (raising `json.JSONDecodeError`) or it parses to a value. -/
inductive BodyParse where
  | malformed : BodyParse
  | val : PyVal → BodyParse

/-- Exceptions that the `try` block of `lambda_handler` can raise, matching
the source's `except` clauses: `json.JSONDecodeError`, `KeyError`, and the
catch-all `except Exception` (which covers `AttributeError` from attribute
access on a non-dict and faults raised by `table.put_item`). -/
inductive PyFault where
  | jsonDecodeError : PyFault
  | keyError : String → PyFault
  | exception : String → PyFault

/-- The inbound API-Gateway event: its `httpMethod` and the parse outcome
of its `body` string. -/
structure Event where
  httpMethod : String
  body : BodyParse

/-- The item written to DynamoDB, with the exact (case-sensitive) attribute
names of the source: `feedback_id` is the partition key. -/
structure Item where
  feedback_id : String
  Name : PyVal
  Email : PyVal
  Category : PyVal
  Rating : PyVal
  Comment : PyVal
  Timestamp : PyVal

/-- A response body: the empty raw string (OPTIONS) or a JSON object that
the source produces with `json.dumps`. -/
inductive RespBody where
  | raw : String → RespBody
  | jsonObj : List (String × PyVal) → RespBody

/-- The API-Gateway response dict of the source. -/
structure Response where
  statusCode : Nat
  headers : List (String × String)
  body : RespBody

/-- The `cors_headers` dict defined at the top of `lambda_handler`. -/
def cors_headers : List (String × String) :=
  [("Access-Control-Allow-Origin", "*"),
   ("Access-Control-Allow-Headers",
      "Content-Type,X-Amz-Date,Authorization,X-Api-Key,X-Amz-Security-Token"),
   ("Access-Control-Allow-Methods", "POST,OPTIONS")]

/-- A response with the CORS headers, as every `return` of the source
builds it. -/
def mkResp (code : Nat) (b : RespBody) : Response :=
  { statusCode := code, headers := cors_headers, body := b }

/-- The dict `{'success': False, 'error': msg}` that the source passes to
`json.dumps`. -/
def errBody (msg : String) : RespBody :=
  .jsonObj [("success", .bool false), ("error", .str msg)]

/-- The dict `{'success': True, 'message': ..., 'feedbackId': feedback_id}`
that the source passes to `json.dumps` on success. -/
def successBody (feedback_id : String) : RespBody :=
  .jsonObj
    [("success", .bool true),
     ("message", .str "Feedback submitted successfully!"),
     ("feedbackId", .str feedback_id)]

/-- The Python type name of a value, used in `AttributeError` messages. -/
def pyTypeName : PyVal → String
  | .str _ => "str"
  | .int _ => "int"
  | .bool _ => "bool"
  | .null => "NoneType"
  | .list _ => "list"
  | .dict _ => "dict"

/-- Lookup in a parsed JSON object (`dict.get(key, default)`). -/
def dictGet (d : List (String × PyVal)) (k : String) (dflt : PyVal) : PyVal :=
  match d.find? (fun p => p.1 == k) with
  | some p => p.2
  | Option.none => dflt

/-- The call `body.get(key, default)`: succeeds on a dict, raises
`AttributeError` (caught by `except Exception`) on any other value. -/
def pyGet (v : PyVal) (k : String) (dflt : PyVal) : Except PyFault PyVal :=
  match v with
  | .dict d => .ok (dictGet d k dflt)
  | _ =>
      .error (.exception (pyTypeName v ++ " object has no attribute get"))

/-- Characters stripped by Python's `str.strip()`: CPython's Unicode
whitespace set (the characters for which `str.isspace()` is true) —
U+0009–U+000D, U+001C–U+001F, the space, U+0085, U+00A0, U+1680,
U+2000–U+200A, U+2028, U+2029, U+202F, U+205F and U+3000. -/
def isPySpace (c : Char) : Bool :=
  let n := c.toNat
  (0x09 ≤ n && n ≤ 0x0D) || (0x1C ≤ n && n ≤ 0x1F) || n == 0x20 ||
  n == 0x85 || n == 0xA0 || n == 0x1680 ||
  (0x2000 ≤ n && n ≤ 0x200A) || n == 0x2028 || n == 0x2029 ||
  n == 0x202F || n == 0x205F || n == 0x3000

/-- Python's `str.strip()`. -/
def pyStripStr (s : String) : String :=
  String.mk (((s.data.dropWhile isPySpace).reverse.dropWhile isPySpace).reverse)

/-- The call `.strip()`: defined on strings, raises `AttributeError`
(caught by `except Exception`) on any other value. -/
def pyStrip (v : PyVal) : Except PyFault PyVal :=
  match v with
  | .str s => .ok (.str (pyStripStr s))
  | _ =>
      .error (.exception (pyTypeName v ++ " object has no attribute strip"))

/-- Python truthiness (`not x` is `!(truthy x)`). -/
def truthy : PyVal → Bool
  | .str s => !s.isEmpty
  | .int n => n != 0
  | .bool b => b
  | .null => false
  | .list l => !l.isEmpty
  | .dict d => !d.isEmpty

/-- The check `isinstance(v, int)`: true for `int` and, because Python's
`bool` is a subclass of `int`, for `bool`. -/
def pyIsInt : PyVal → Bool
  | .int _ => true
  | .bool _ => true
  | _ => false

/-- Numeric value used by the `<` and `>` comparisons (`True == 1`,
`False == 0`); only consulted when `pyIsInt` holds, mirroring the
short-circuit of `not isinstance(rating, int) or rating < 1 or rating > 5`. -/
def pyIntVal : PyVal → Int
  | .int n => n
  | .bool b => if b then 1 else 0
  | _ => 0

/-- The rating validation condition
`not isinstance(rating, int) or rating < 1 or rating > 5`. -/
def ratingInvalid (r : PyVal) : Bool :=
  !pyIsInt r || decide (pyIntVal r < 1) || decide (pyIntVal r > 5)

/-- Sequencing inside the `try` block: a raised fault aborts the flow with
an empty trace of store writes. -/
def bindE (e : Except PyFault PyVal)
    (k : PyVal → Except PyFault Response × List Item) :
    Except PyFault Response × List Item :=
  match e with
  | .error f => (.error f, [])
  | .ok a => k a

/-- The body of the `try` block of the POST branch, line by line:
`json.loads`, the five `.get` extractions with their defaults, the
`.strip()` of the comment, the four validations in source order, then the
item construction and the `table.put_item` call (`putFault = some m` means
`put_item` raised an exception with message `m`; the issued call is
recorded in the trace either way). -/
def postFlow (bp : BodyParse) (fid ts : String) (putFault : Option String) :
    Except PyFault Response × List Item :=
  match bp with
  | .malformed => (.error .jsonDecodeError, [])
  | .val body =>
    bindE (pyGet body "name" (.str "Anonymous")) fun name =>
    bindE (pyGet body "email" (.str "N/A")) fun email =>
    bindE (pyGet body "category" (.str "General")) fun category =>
    bindE (pyGet body "rating" (.int 0)) fun rating =>
    bindE (pyGet body "comment" (.str "")) fun rawComment =>
    bindE (pyStrip rawComment) fun comment =>
    if !truthy name then
      (.ok (mkResp 400 (errBody "Feedback name cannot be empty.")), [])
    else if !truthy email then
      (.ok (mkResp 400 (errBody "Feedback email cannot be empty.")), [])
    else if !truthy comment then
      (.ok (mkResp 400 (errBody "Feedback comment cannot be empty.")), [])
    else if ratingInvalid rating then
      (.ok (mkResp 400 (errBody "Rating must be an integer between 1 and 5.")), [])
    else
      let item : Item :=
        { feedback_id := fid, Name := name, Email := email,
          Category := category, Rating := rating, Comment := comment,
          Timestamp := .str ts }
      match putFault with
      | some m => (.error (.exception m), [item])
      | Option.none => (.ok (mkResp 200 (successBody fid)), [item])

/-- The function `lambda_handler`: method dispatch, the POST `try` block,
and the `except` clauses converting raised faults to responses.  Returns
the response together with the trace of issued `put_item` calls. -/
def lambda_handler (ev : Event) (fid ts : String) (putFault : Option String) :
    Response × List Item :=
  if ev.httpMethod = "OPTIONS" then
    ({ statusCode := 200, headers := cors_headers, body := .raw "" }, [])
  else if ev.httpMethod = "POST" then
    match postFlow ev.body fid ts putFault with
    | (.ok r, tr) => (r, tr)
    | (.error .jsonDecodeError, tr) =>
        (mkResp 400 (errBody "Invalid JSON in request body."), tr)
    | (.error (.keyError m), tr) =>
        (mkResp 400 (errBody ("Missing expected field: " ++ m)), tr)
    | (.error (.exception m), tr) =>
        (mkResp 500 (errBody ("Internal server error: " ++ m)), tr)
  else
    (mkResp 405 (errBody "Method Not Allowed"), [])

/-- Module-level initialisation: `table_name = os.environ.get(...)` and the
`if not table_name: raise ValueError(...)` guard (an unset variable is
`None`, and both `None` and the empty string are falsy). -/
def moduleInit (env : Option String) : Except String String :=
  match env with
  | Option.none =>
      .error "DYNAMODB_TABLE_NAME environment variable is not set."
  | some s =>
      if s.isEmpty then
        .error "DYNAMODB_TABLE_NAME environment variable is not set."
      else .ok s

/-- The flow reaches `table.put_item`: the body parsed to a dict, the
comment field (defaulting to `""`) is a string so `.strip()` succeeds, and
the four validations pass. -/
def passesValidation (bp : BodyParse) : Bool :=
  match bp with
  | .malformed => false
  | .val (.dict d) =>
    match dictGet d "comment" (.str "") with
    | .str c =>
        truthy (dictGet d "name" (.str "Anonymous")) &&
        truthy (dictGet d "email" (.str "N/A")) &&
        !(pyStripStr c).isEmpty &&
        !ratingInvalid (dictGet d "rating" (.int 0))
    | _ => false
  | .val _ => false

/-- Auxiliary: any successful response produced inside the `try` block
carries the CORS headers. -/
def flowHeadersOK : Except PyFault Response × List Item → Prop
  | (.ok r, _) => r.headers = cors_headers
  | (.error _, _) => True

lemma truthy_str (s : String) : truthy (.str s) = !s.isEmpty := rfl

lemma postFlow_headers (bp : BodyParse) (fid ts : String) (pf : Option String) :
    flowHeadersOK (postFlow bp fid ts pf) := by
  cases bp with
  | malformed => trivial
  | val v =>
    cases v with
    | dict d =>
      simp only [postFlow, bindE, pyGet]
      rcases hcv : dictGet d "comment" (.str "") <;>
        simp only [pyStrip] <;> try trivial
      split_ifs <;> try (exact rfl)
      cases pf <;> trivial
    | str s => trivial
    | int n => trivial
    | bool b => trivial
    | null => trivial
    | list l => trivial

lemma handler_trace (ev : Event) (fid ts : String) (pf : Option String) :
    (lambda_handler ev fid ts pf).2 =
      if ev.httpMethod = "OPTIONS" then []
      else if ev.httpMethod = "POST" then (postFlow ev.body fid ts pf).2
      else [] := by
  unfold lambda_handler
  split_ifs with h1 h2
  · rfl
  · rcases hpf : postFlow ev.body fid ts pf with ⟨f | r, tr⟩
    · cases f <;> simp [hpf]
    · simp [hpf]
  · rfl

lemma postFlow_trace (bp : BodyParse) (fid ts : String) (pf : Option String) :
    ((postFlow bp fid ts pf).2 = [] ↔ passesValidation bp = false) ∧
    (postFlow bp fid ts pf).2.length ≤ 1 := by
  cases bp with
  | malformed => simp [postFlow, passesValidation]
  | val v =>
    cases v with
    | dict d =>
      simp only [postFlow, bindE, pyGet, passesValidation]
      rcases hcv : dictGet d "comment" (.str "") <;>
        simp only [pyStrip] <;> try simp
      split_ifs with h1 h2 h3 h4 <;> (try cases pf) <;> simp_all [truthy]
    | str s => simp [postFlow, bindE, pyGet, passesValidation]
    | int n => simp [postFlow, bindE, pyGet, passesValidation]
    | bool b => simp [postFlow, bindE, pyGet, passesValidation]
    | null => simp [postFlow, bindE, pyGet, passesValidation]
    | list l => simp [postFlow, bindE, pyGet, passesValidation]

lemma postFlow_item_name (bp : BodyParse) (fid ts : String) (pf : Option String)
    (it : Item) (hit : it ∈ (postFlow bp fid ts pf).2) :
    truthy it.Name = true := by
  cases bp with
  | malformed => exact absurd hit (List.not_mem_nil it)
  | val v =>
    cases v with
    | dict d =>
      simp only [postFlow, bindE, pyGet] at hit
      rcases hcv : dictGet d "comment" (.str "") <;>
        rw [hcv] at hit <;> simp only [pyStrip] at hit <;>
        try exact absurd hit (List.not_mem_nil it)
      split_ifs at hit with h1 h2 h3 h4 <;>
        try exact absurd hit (List.not_mem_nil it)
      have hn : truthy (dictGet d "name" (.str "Anonymous")) = true := by
        simpa using h1
      cases pf with
      | some m =>
        simp only [List.mem_singleton] at hit
        rw [hit]
        exact hn
      | none =>
        simp only [List.mem_singleton] at hit
        rw [hit]
        exact hn
    | str s => exact absurd hit (List.not_mem_nil it)
    | int n => exact absurd hit (List.not_mem_nil it)
    | bool b => exact absurd hit (List.not_mem_nil it)
    | null => exact absurd hit (List.not_mem_nil it)
    | list l => exact absurd hit (List.not_mem_nil it)

/-- C1: a POST whose body parses to a dict and passes all four validations
returns 200 with `{success: true, message: "Feedback submitted
successfully!", feedbackId: fid}`, where `fid` is the freshly generated
identifier, and issues exactly one store write whose record has
`feedback_id = fid` as its key. -/
theorem post_success_response_and_write
    (d : List (String × PyVal)) (fid ts c : String)
    (hn : truthy (dictGet d "name" (.str "Anonymous")) = true)
    (he : truthy (dictGet d "email" (.str "N/A")) = true)
    (hc : dictGet d "comment" (.str "") = PyVal.str c)
    (hcs : (pyStripStr c).isEmpty = false)
    (hr : ratingInvalid (dictGet d "rating" (.int 0)) = false) :
    lambda_handler ⟨"POST", .val (.dict d)⟩ fid ts Option.none =
      (mkResp 200 (successBody fid),
       [{ feedback_id := fid,
          Name := dictGet d "name" (.str "Anonymous"),
          Email := dictGet d "email" (.str "N/A"),
          Category := dictGet d "category" (.str "General"),
          Rating := dictGet d "rating" (.int 0),
          Comment := .str (pyStripStr c),
          Timestamp := .str ts }]) := by
  simp [lambda_handler, postFlow, bindE, pyGet, pyStrip, hc, hn, he, hr, truthy_str, hcs]

/-- Witness for C1 at a concrete valid submission. -/
theorem post_success_response_and_write_witness :
    lambda_handler
        ⟨"POST", .val (.dict
          [("name", .str "A"), ("email", .str "a@b.com"),
           ("comment", .str "hi"), ("rating", .int 5)])⟩ "id1" "t1" Option.none =
      (mkResp 200 (successBody "id1"),
       [{ feedback_id := "id1", Name := .str "A", Email := .str "a@b.com",
          Category := .str "General", Rating := .int 5,
          Comment := .str "hi", Timestamp := .str "t1" }]) :=
  post_success_response_and_write
    [("name", .str "A"), ("email", .str "a@b.com"),
     ("comment", .str "hi"), ("rating", .int 5)] "id1" "t1" "hi"
    rfl rfl rfl rfl rfl

/-- C2: on a POST whose body is a dict with a string (or absent) comment,
the four validations run in order name, email, trimmed comment, rating,
short-circuiting at the first failure, each returning 400 with exactly the
listed message. -/
theorem validation_order_and_messages
    (d : List (String × PyVal)) (fid ts c : String) (pf : Option String)
    (hc : dictGet d "comment" (.str "") = PyVal.str c) :
    (truthy (dictGet d "name" (.str "Anonymous")) = false →
      lambda_handler ⟨"POST", .val (.dict d)⟩ fid ts pf =
        (mkResp 400 (errBody "Feedback name cannot be empty."), [])) ∧
    (truthy (dictGet d "name" (.str "Anonymous")) = true →
     truthy (dictGet d "email" (.str "N/A")) = false →
      lambda_handler ⟨"POST", .val (.dict d)⟩ fid ts pf =
        (mkResp 400 (errBody "Feedback email cannot be empty."), [])) ∧
    (truthy (dictGet d "name" (.str "Anonymous")) = true →
     truthy (dictGet d "email" (.str "N/A")) = true →
     (pyStripStr c).isEmpty = true →
      lambda_handler ⟨"POST", .val (.dict d)⟩ fid ts pf =
        (mkResp 400 (errBody "Feedback comment cannot be empty."), [])) ∧
    (truthy (dictGet d "name" (.str "Anonymous")) = true →
     truthy (dictGet d "email" (.str "N/A")) = true →
     (pyStripStr c).isEmpty = false →
     ratingInvalid (dictGet d "rating" (.int 0)) = true →
      lambda_handler ⟨"POST", .val (.dict d)⟩ fid ts pf =
        (mkResp 400 (errBody "Rating must be an integer between 1 and 5."), [])) := by
  refine ⟨fun h1 => ?_, fun h1 h2 => ?_, fun h1 h2 h3 => ?_, fun h1 h2 h3 h4 => ?_⟩ <;>
    simp [lambda_handler, postFlow, bindE, pyGet, pyStrip, hc, truthy_str, *]

/-- Witness for C2: a whitespace-only comment is rejected with the comment
message even though the rating is also invalid (short-circuit order). -/
theorem validation_order_and_messages_witness :
    lambda_handler
        ⟨"POST", .val (.dict
          [("name", .str "A"), ("email", .str "a@b.com"),
           ("comment", .str "   "), ("rating", .int 9)])⟩ "i" "t" Option.none =
      (mkResp 400 (errBody "Feedback comment cannot be empty."), []) :=
  (validation_order_and_messages
    [("name", .str "A"), ("email", .str "a@b.com"),
     ("comment", .str "   "), ("rating", .int 9)] "i" "t" "   " Option.none
    rfl).2.2.1 rfl rfl rfl

/-- C3: the handler issues a store write if and only if the request is a
POST whose body parses to a dict and passes extraction and all four
validations; and it never issues more than one write.  In particular the
OPTIONS path, the 405 path and every 400 path issue no write. -/
theorem write_iff_valid_post (ev : Event) (fid ts : String) (pf : Option String) :
    ((lambda_handler ev fid ts pf).2 = [] ↔
      ¬(ev.httpMethod = "POST" ∧ passesValidation ev.body = true)) ∧
    (lambda_handler ev fid ts pf).2.length ≤ 1 := by
  rw [handler_trace]
  rcases postFlow_trace ev.body fid ts pf with ⟨hiff, hlen⟩
  split_ifs with h1 h2
  · simp [h1]
  · simp only [h2, true_and]
    exact ⟨hiff.trans (by simp), hlen⟩
  · simp [h2]

/-- C4: on the POST path, any raised fault that is not a parse failure
(and not the unreachable `KeyError`) is caught by the catch-all clause and
converted to 500 with body `{success: false, error: "Internal server
error: " + msg}`; and, at module initialisation, exactly a missing or
empty `DYNAMODB_TABLE_NAME` raises the fatal configuration fault (the
handler itself is a total function: no fault escapes it). -/
theorem faults_convert_to_500 (b : BodyParse) (fid ts m : String)
    (pf : Option String) (tr : List Item)
    (h : postFlow b fid ts pf = (.error (.exception m), tr)) :
    lambda_handler ⟨"POST", b⟩ fid ts pf =
      (mkResp 500 (errBody ("Internal server error: " ++ m)), tr) ∧
    (∀ env : Option String,
      moduleInit env =
          .error "DYNAMODB_TABLE_NAME environment variable is not set." ↔
        (env = Option.none ∨ env = some "")) := by
  constructor
  · simp [lambda_handler, h]
  · intro env
    cases env with
    | none => simp [moduleInit]
    | some s =>
      simp only [moduleInit]
      by_cases hs : s.isEmpty = true
      · have hse : s = "" := (String.isEmpty_iff s).mp hs
        subst hse
        rw [if_pos (show ("" : String).isEmpty = true from rfl)]
        simp
      · rw [if_neg hs]
        constructor
        · intro he
          exact Except.noConfusion he
        · rintro (he | he)
          · exact Option.noConfusion he
          · have hse : s = "" := by injection he
            exact absurd ((String.isEmpty_iff s).mpr hse) hs

/-- Witness for C4: a body that parses to a bare JSON string makes the
first `.get` raise `AttributeError`, which the handler converts to 500. -/
theorem faults_convert_to_500_witness :
    lambda_handler ⟨"POST", .val (.str "oops")⟩ "i" "t" Option.none =
      (mkResp 500
        (errBody "Internal server error: str object has no attribute get"),
       []) ∧
    (∀ env : Option String,
      moduleInit env =
          .error "DYNAMODB_TABLE_NAME environment variable is not set." ↔
        (env = Option.none ∨ env = some "")) :=
  faults_convert_to_500 (.val (.str "oops")) "i" "t"
    "str object has no attribute get" Option.none [] rfl

/-- C5 counterexample: the claim that a 200 response implies the persisted
name is more than whitespace, and that a whitespace-only name is rejected,
fails: a POST with name `"   "` is accepted with 200 and the written
record's `Name` is the whitespace-only string (its strip is empty). -/
theorem whitespace_name_accepted :
    lambda_handler
        ⟨"POST", .val (.dict
          [("name", .str "   "), ("email", .str "a@b.com"),
           ("comment", .str "hi"), ("rating", .int 5)])⟩ "i" "t" Option.none =
      (mkResp 200 (successBody "i"),
       [{ feedback_id := "i", Name := .str "   ", Email := .str "a@b.com",
          Category := .str "General", Rating := .int 5,
          Comment := .str "hi", Timestamp := .str "t" }]) ∧
    pyStripStr "   " = "" := ⟨rfl, rfl⟩

/-- C5 amended: every record the handler writes has a truthy `Name`
(a string name is non-empty, though possibly whitespace-only), and a POST
whose name field is the empty string (with a string comment) is rejected
with 400 and the name message. -/
theorem stored_name_truthy (ev : Event) (fid ts : String) (pf : Option String)
    (d : List (String × PyVal)) (c : String)
    (hc : dictGet d "comment" (.str "") = PyVal.str c) :
    (∀ it ∈ (lambda_handler ev fid ts pf).2, truthy it.Name = true) ∧
    (dictGet d "name" (.str "Anonymous") = PyVal.str "" →
      lambda_handler ⟨"POST", .val (.dict d)⟩ fid ts pf =
        (mkResp 400 (errBody "Feedback name cannot be empty."), [])) := by
  constructor
  · intro it hit
    rw [handler_trace] at hit
    split_ifs at hit with h1 h2
    · exact absurd hit (List.not_mem_nil it)
    · exact postFlow_item_name ev.body fid ts pf it hit
    · exact absurd hit (List.not_mem_nil it)
  · intro hname
    have h1 : truthy (dictGet d "name" (.str "Anonymous")) = false := by
      rw [hname]; rfl
    simp [lambda_handler, postFlow, bindE, pyGet, pyStrip, hc, truthy_str, h1]

/-- Witness for C5 amended: the record written for a valid submission has
a truthy name, and the empty-string name is rejected with the name
message. -/
theorem stored_name_truthy_witness :
    truthy (PyVal.str "A") = true ∧
    lambda_handler
        ⟨"POST", .val (.dict
          [("name", .str ""), ("email", .str "e"),
           ("comment", .str "hi"), ("rating", .int 5)])⟩ "i" "t" Option.none =
      (mkResp 400 (errBody "Feedback name cannot be empty."), []) :=
  ⟨(stored_name_truthy
      ⟨"POST", .val (.dict
        [("name", .str "A"), ("email", .str "e"),
         ("comment", .str "hi"), ("rating", .int 5)])⟩ "i" "t" Option.none
      [("name", .str "A"), ("email", .str "e"),
       ("comment", .str "hi"), ("rating", .int 5)] "hi" rfl).1
      { feedback_id := "i", Name := .str "A", Email := .str "e",
        Category := .str "General", Rating := .int 5,
        Comment := .str "hi", Timestamp := .str "t" }
      (List.mem_singleton.mpr rfl),
   (stored_name_truthy
      ⟨"POST", .val (.dict
        [("name", .str ""), ("email", .str "e"),
         ("comment", .str "hi"), ("rating", .int 5)])⟩ "i" "t" Option.none
      [("name", .str ""), ("email", .str "e"),
       ("comment", .str "hi"), ("rating", .int 5)] "hi" rfl).2 rfl⟩

/-- C6: a POST whose parsed body has no `rating` key but valid name, email
and comment gets the default rating 0, which the validation rejects: 400
with the rating message and no store write. -/
theorem missing_rating_rejected (d : List (String × PyVal)) (fid ts c : String)
    (pf : Option String)
    (hmiss : d.find? (fun p => p.1 == "rating") = Option.none)
    (hn : truthy (dictGet d "name" (.str "Anonymous")) = true)
    (he : truthy (dictGet d "email" (.str "N/A")) = true)
    (hc : dictGet d "comment" (.str "") = PyVal.str c)
    (hcs : (pyStripStr c).isEmpty = false) :
    lambda_handler ⟨"POST", .val (.dict d)⟩ fid ts pf =
      (mkResp 400 (errBody "Rating must be an integer between 1 and 5."), []) := by
  have hr : dictGet d "rating" (.int 0) = PyVal.int 0 := by
    simp [dictGet, hmiss]
  simp [lambda_handler, postFlow, bindE, pyGet, pyStrip, hc, hn, he, truthy_str,
        hcs, hr, ratingInvalid, pyIsInt, pyIntVal]

/-- Witness for C6 at a body with name, email and comment but no rating. -/
theorem missing_rating_rejected_witness :
    lambda_handler
        ⟨"POST", .val (.dict
          [("name", .str "A"), ("email", .str "a@b.com"),
           ("comment", .str "hi")])⟩ "i" "t" Option.none =
      (mkResp 400 (errBody "Rating must be an integer between 1 and 5."), []) :=
  missing_rating_rejected
    [("name", .str "A"), ("email", .str "a@b.com"), ("comment", .str "hi")]
    "i" "t" "hi" Option.none rfl rfl rfl rfl rfl

/-- C7: a POST whose body is not valid JSON gets 400 with the invalid-JSON
message, and no store write is issued. -/
theorem malformed_body_invalid_json (fid ts : String) (pf : Option String) :
    lambda_handler ⟨"POST", .malformed⟩ fid ts pf =
      (mkResp 400 (errBody "Invalid JSON in request body."), []) := rfl

/-- C8: an OPTIONS request gets 200 with the CORS headers and the empty
string body, whatever the body holds, and no store write is issued. -/
theorem options_preflight (b : BodyParse) (fid ts : String) (pf : Option String) :
    lambda_handler ⟨"OPTIONS", b⟩ fid ts pf =
      ({ statusCode := 200, headers := cors_headers, body := .raw "" }, []) := rfl

/-- C9: every response of the handler, on every path, carries exactly the
three CORS headers of `cors_headers`. -/
theorem cors_headers_every_path (ev : Event) (fid ts : String) (pf : Option String) :
    (lambda_handler ev fid ts pf).1.headers = cors_headers := by
  unfold lambda_handler
  split_ifs with h1 h2
  · rfl
  · have hh := postFlow_headers ev.body fid ts pf
    rcases hpf : postFlow ev.body fid ts pf with ⟨f | r, tr⟩
    · cases f <;> simp [hpf, mkResp]
    · rw [hpf] at hh
      exact hh
  · rfl

/-- C10: a POST whose body supplies the JSON boolean `true` as rating
passes the rating validation (Python's `bool` is a subclass of `int` and
`True == 1`), so the handler returns 200 and the written record's
`Rating` is the boolean `true`, not an integer. -/
theorem bool_rating_accepted (d : List (String × PyVal)) (fid ts c : String)
    (hn : truthy (dictGet d "name" (.str "Anonymous")) = true)
    (he : truthy (dictGet d "email" (.str "N/A")) = true)
    (hc : dictGet d "comment" (.str "") = PyVal.str c)
    (hcs : (pyStripStr c).isEmpty = false)
    (hr : dictGet d "rating" (.int 0) = PyVal.bool true) :
    lambda_handler ⟨"POST", .val (.dict d)⟩ fid ts Option.none =
      (mkResp 200 (successBody fid),
       [{ feedback_id := fid,
          Name := dictGet d "name" (.str "Anonymous"),
          Email := dictGet d "email" (.str "N/A"),
          Category := dictGet d "category" (.str "General"),
          Rating := PyVal.bool true,
          Comment := .str (pyStripStr c),
          Timestamp := .str ts }]) := by
  simp [lambda_handler, postFlow, bindE, pyGet, pyStrip, hc, hn, he, truthy_str,
        hcs, hr, ratingInvalid, pyIsInt, pyIntVal]

/-- Witness for C10 at a concrete body with `"rating": true`. -/
theorem bool_rating_accepted_witness :
    lambda_handler
        ⟨"POST", .val (.dict
          [("name", .str "A"), ("email", .str "a@b.com"),
           ("comment", .str "hi"), ("rating", .bool true)])⟩ "i" "t" Option.none =
      (mkResp 200 (successBody "i"),
       [{ feedback_id := "i", Name := .str "A", Email := .str "a@b.com",
          Category := .str "General", Rating := PyVal.bool true,
          Comment := .str "hi", Timestamp := .str "t" }]) :=
  bool_rating_accepted
    [("name", .str "A"), ("email", .str "a@b.com"),
     ("comment", .str "hi"), ("rating", .bool true)]
    "i" "t" "hi" rfl rfl rfl rfl rfl
